import Mathlib

/-!
Verification development for the pdf-resizer Tauri shell
(src/src-tauri/src/main.rs).

The code is a discovery/dispatch wrapper around an external Ghostscript
binary.  We embed it shallowly: file-system state and process spawning
are oracles supplied through environment structures, and each Rust
function becomes a pure Lean function over those oracles.  Bytes are
`List Nat`, paths and diagnostics are `String`.
-/

/-- Embedding of `tauri::api::process::Output`: the exit status is kept as
a success flag (`ExitStatus::success`) plus its `Debug` rendering (used by
the `{:?}` format directives), and the captured streams are strings, as in
tauri's v1 API. -/
structure Output where
  success : Bool
  statusDebug : String
  stdout : String
  stderr : String
  deriving DecidableEq, Repr

/-- Result of `Command::output()`: either the process ran to completion
(`ok`, any exit status) or it could not be spawned (`err` with the
io-error text). -/
inductive SpawnResult where
  | ok (out : Output)
  | err (msg : String)
  deriving DecidableEq, Repr

/-- Environment for `run_ghostscript`.

* `localCandidates` — the platform-local bundled candidate paths, in the
  order the source lists them (empty when `current_exe`/`parent` fails or
  on platforms without that block);
* `sidecar` — `Ok` result of `SidecarCommand::new_sidecar("gs")`
  (`none` on Windows builds or when sidecar resolution fails);
* `fallbackCommands` — `GHOSTSCRIPT_FALLBACK_COMMANDS` for the platform;
* `pathExists` — the `Path::exists` oracle used to gate local candidates;
* `run` — the process oracle: what spawning a given command with given
  arguments does.  (The macOS `GS_LIB` environment synthesis only changes
  the spawned process's behaviour, which this oracle absorbs.) -/
structure GsEnv where
  localCandidates : List String
  sidecar : Option String
  fallbackCommands : List String
  pathExists : String → Bool
  run : String → List String → SpawnResult

/-- `GHOSTSCRIPT_FALLBACK_COMMANDS` on Windows builds. -/
def GHOSTSCRIPT_FALLBACK_COMMANDS_windows : List String :=
  ["gswin64c", "gswin32c", "gs"]

/-- `GHOSTSCRIPT_FALLBACK_COMMANDS` on non-Windows builds. -/
def GHOSTSCRIPT_FALLBACK_COMMANDS_other : List String :=
  ["gs"]

/-- The macOS app-local candidate list (`local_candidates` in the source),
given the directories the source computes them from. -/
def macosLocalCandidates (exeDir resourceDir : String)
    (devResourceDir : Option String) : List String :=
  [resourceDir ++ "/ghostscript/bin/gs",
   (match devResourceDir with
    | some d => d ++ "/bin/gs"
    | none => ""),
   exeDir ++ "/gs",
   exeDir ++ "/gs-aarch64-apple-darwin",
   exeDir ++ "/gs-x86_64-apple-darwin",
   exeDir ++ "/gs-universal-apple-darwin",
   resourceDir ++ "/gs",
   resourceDir ++ "/gs-aarch64-apple-darwin",
   resourceDir ++ "/gs-x86_64-apple-darwin",
   resourceDir ++ "/gs-universal-apple-darwin"]

/-- The Windows app-local candidate list (`local_candidates` in the
source). -/
def windowsLocalCandidates (exeDir : String) : List String :=
  [exeDir ++ "/gs.exe",
   exeDir ++ "/ghostscript/bin/gswin64c.exe",
   exeDir ++ "/ghostscript/bin/gswin32c.exe"]

/-- `format!("Ghostscript command '{}' failed with status {:?}: {}", ...)`
from the system-path fallback loop. -/
def statusDiag (command : String) (out : Output) : String :=
  "Ghostscript command \x27" ++ command ++ "\x27 failed with status " ++
    out.statusDebug ++ ": " ++ out.stderr

/-- `format!("Failed to execute Ghostscript command '{}': {}", ...)` from
the system-path fallback loop. -/
def spawnDiag (command : String) (e : String) : String :=
  "Failed to execute Ghostscript command \x27" ++ command ++ "\x27: " ++ e

/-- The app-local candidate loops: each candidate is attempted only if it
exists on disk; the first one that spawns and exits successfully wins;
any other outcome is logged and the loop continues. -/
def tryLocals (env : GsEnv) (args : List String) :
    List String → Option Output
  | [] => none
  | c :: rest =>
    if env.pathExists c then
      match env.run c args with
      | SpawnResult.ok out =>
        if out.success then some out else tryLocals env args rest
      | SpawnResult.err _ => tryLocals env args rest
    else tryLocals env args rest

/-- The sidecar attempt (`if let Ok(cmd) = SidecarCommand::new_sidecar("gs")`):
run it; keep the output only on a successful exit; otherwise log and move
on. -/
def trySidecar (env : GsEnv) (args : List String) : Option Output :=
  match env.sidecar with
  | none => none
  | some s =>
    match env.run s args with
    | SpawnResult.ok out => if out.success then some out else none
    | SpawnResult.err _ => none

/-- The system-path fallback loop over `GHOSTSCRIPT_FALLBACK_COMMANDS`,
threading `last_error` exactly as the source does: a failed exit or a
spawn error overwrites `last_error` and the loop continues; exhaustion
returns the final `last_error`. -/
def tryFallbacks (env : GsEnv) (args : List String) (lastError : String) :
    List String → Except String Output
  | [] => Except.error lastError
  | c :: rest =>
    match env.run c args with
    | SpawnResult.ok out =>
      if out.success then Except.ok out
      else tryFallbacks env args (statusDiag c out) rest
    | SpawnResult.err e => tryFallbacks env args (spawnDiag c e) rest

/-- `run_ghostscript`: app-local candidates, then the sidecar, then the
system-path fallback commands (with `last_error` initialised to
"Ghostscript is not available."). -/
def run_ghostscript (env : GsEnv) (args : List String) :
    Except String Output :=
  match tryLocals env args env.localCandidates with
  | some out => Except.ok out
  | none =>
    match trySidecar env args with
    | some out => Except.ok out
    | none =>
      tryFallbacks env args "Ghostscript is not available."
        env.fallbackCommands

/-- A candidate "succeeds" when it spawns and exits with a success
status. -/
def succeedsB (env : GsEnv) (args : List String) (c : String) : Bool :=
  match env.run c args with
  | SpawnResult.ok out => out.success
  | SpawnResult.err _ => false

/-- The full candidate order `run_ghostscript` walks: bundled local
candidates that exist on disk, then the sidecar, then the system-path
fallback commands. -/
def candidateOrder (env : GsEnv) : List String :=
  env.localCandidates.filter env.pathExists ++ env.sidecar.toList ++
    env.fallbackCommands

/-- The diagnostic the fallback loop would record for a failing attempt at
command `c`. -/
def attemptDiag (env : GsEnv) (args : List String) (c : String) : String :=
  match env.run c args with
  | SpawnResult.ok out => statusDiag c out
  | SpawnResult.err e => spawnDiag c e

/-- `check_ghostscript`: version probe; trimmed stdout on success, empty
string (after logging) on any discovery failure. -/
def check_ghostscript (env : GsEnv) : String :=
  match run_ghostscript env ["--version"] with
  | Except.ok output => output.stdout.trim
  | Except.error _ => ""

/-- File-system state: a map from path to file contents (`none` = the
path does not denote a readable file). -/
structure FS where
  files : String → Option (List Nat)

/-- Creating/overwriting a file (`File::create` + `write_all`). -/
def FS.set (fs : FS) (p : String) (bytes : List Nat) : FS :=
  ⟨fun q => if q = p then some bytes else fs.files q⟩

/-- `std::fs::remove_file`, whose result the source discards (`let _ =`):
the path stops existing; errors are ignored. -/
def FS.erase (fs : FS) (p : String) : FS :=
  ⟨fun q => if q = p then none else fs.files q⟩

/-- `std::fs::read`: the contents, when the path denotes a readable
file. -/
def FS.read (fs : FS) (p : String) : Option (List Nat) :=
  fs.files p

/-- `tmp_dir.join("pdfresizer_flatten_input.pdf")`. -/
def inputPath (tmpDir : String) : String :=
  tmpDir ++ "/pdfresizer_flatten_input.pdf"

/-- `tmp_dir.join("pdfresizer_flatten_output.pdf")`. -/
def outputPath (tmpDir : String) : String :=
  tmpDir ++ "/pdfresizer_flatten_output.pdf"

/-- The `args` array `flatten_pdf` builds (with `output_file_arg` and
`input_file_arg` inlined). -/
def flattenArgs (tmpDir : String) : List String :=
  ["-dBATCH",
   "-dNOPAUSE",
   "-dSAFER",
   "-dQUIET",
   "-sDEVICE=pdfwrite",
   "-dNoOutputFonts",
   "-dCompatibilityLevel=1.7",
   "-sOutputFile=" ++ outputPath tmpDir,
   inputPath tmpDir]

/-- Environment for `flatten_pdf` beyond the engine environment:

* `tmpDir` — `std::env::temp_dir()`;
* `writeErr` — io-error text when `File::create(...).and_then(write_all)`
  fails, `none` when the write succeeds;
* `readErr` — io-error text `std::fs::read` would report when the output
  file is unreadable;
* `engineFs` — the external engine's effect on the file system (it, not
  our code, creates the output file). -/
structure FlattenEnv where
  gs : GsEnv
  tmpDir : String
  writeErr : Option String
  readErr : String
  engineFs : FS → FS

/-- Result of a `flatten_pdf` call: the returned value, the final file
system, and two observation fields recording what the wrapper did on the
way — which bytes it wrote to which file, and with which argument list it
invoked the engine (`none` when that point was never reached). -/
structure FlattenResult where
  result : Except String (List Nat)
  fs : FS
  inputWritten : Option (String × List Nat)
  engineArgs : Option (List String)

/-- `flatten_pdf`: write the bytes to the fixed-name temp input file,
invoke the engine with the fixed argument list, check the returned exit
status, read the temp output file, delete both temp files, return the
bytes.  Error paths mirror the source's `?` propagations exactly. -/
def flatten_pdf (env : FlattenEnv) (fs : FS) (pdf_bytes : List Nat) :
    FlattenResult :=
  match env.writeErr with
  | some e =>
    { result := Except.error ("Failed to write temp input file: " ++ e),
      fs := fs, inputWritten := none, engineArgs := none }
  | none =>
    let ip := inputPath env.tmpDir
    let op := outputPath env.tmpDir
    let fs1 := fs.set ip pdf_bytes
    let args := flattenArgs env.tmpDir
    let fs2 := env.engineFs fs1
    match run_ghostscript env.gs args with
    | Except.error e =>
      -- the `?` on `run_ghostscript(&args)?`: no cleanup happens here
      { result := Except.error e, fs := fs2,
        inputWritten := some (ip, pdf_bytes), engineArgs := some args }
    | Except.ok result =>
      if result.success = false then
        -- `if !result.status.success()`
        { result := Except.error ("Ghostscript failed: " ++ result.stderr),
          fs := (fs2.erase ip).erase op,
          inputWritten := some (ip, pdf_bytes), engineArgs := some args }
      else
        match fs2.read op with
        | none =>
          -- the `?` on `std::fs::read(...)?`: no cleanup happens here
          { result := Except.error
              ("Failed to read flattened output: " ++ env.readErr),
            fs := fs2,
            inputWritten := some (ip, pdf_bytes), engineArgs := some args }
        | some output_bytes =>
          { result := Except.ok output_bytes,
            fs := (fs2.erase ip).erase op,
            inputWritten := some (ip, pdf_bytes), engineArgs := some args }

/-- `flatten_pdf` with the non-success-status branch removed: used to
state that that branch is unreachable. -/
def flatten_pdf_nodead (env : FlattenEnv) (fs : FS) (pdf_bytes : List Nat) :
    FlattenResult :=
  match env.writeErr with
  | some e =>
    { result := Except.error ("Failed to write temp input file: " ++ e),
      fs := fs, inputWritten := none, engineArgs := none }
  | none =>
    let ip := inputPath env.tmpDir
    let op := outputPath env.tmpDir
    let fs1 := fs.set ip pdf_bytes
    let args := flattenArgs env.tmpDir
    let fs2 := env.engineFs fs1
    match run_ghostscript env.gs args with
    | Except.error e =>
      { result := Except.error e, fs := fs2,
        inputWritten := some (ip, pdf_bytes), engineArgs := some args }
    | Except.ok _ =>
      match fs2.read op with
      | none =>
        { result := Except.error
            ("Failed to read flattened output: " ++ env.readErr),
          fs := fs2,
          inputWritten := some (ip, pdf_bytes), engineArgs := some args }
      | some output_bytes =>
        { result := Except.ok output_bytes,
          fs := (fs2.erase ip).erase op,
          inputWritten := some (ip, pdf_bytes), engineArgs := some args }

/-- `check_file_existence`: map `Path::exists` over the given paths. -/
def check_file_existence (pathExists : String → Bool)
    (file_paths : List String) : List Bool :=
  file_paths.map (fun path => pathExists path)

/-- `take_pending_open_paths`: under the mutex, clone the pending list,
clear it, and return the clone.  State-passing embedding: input is the
queue contents, output is (returned list, new queue contents). -/
def take_pending_open_paths (pending : List String) :
    List String × List String :=
  (pending, [])

/-- `collect_startup_file_paths`: launch arguments after the program
name, kept when they name an existing regular file. -/
def collect_startup_file_paths (pathExists isFile : String → Bool)
    (args : List String) : List String :=
  (args.drop 1).filterMap (fun arg =>
    if pathExists arg && isFile arg then some arg else none)

/-- The `setup` hook's effect on the pending queue: if the collected
startup paths are non-empty they are appended (after the event emission,
which does not touch the queue). -/
def setupPending (startupPaths pending : List String) : List String :=
  if startupPaths.isEmpty then pending else pending ++ startupPaths

/-! ### Concrete environments used by witnesses and counterexamples -/

/-- An engine run that exited with a non-zero status. -/
def failOut : Output :=
  { success := false, statusDebug := "ExitStatus(unix_wait_status(256))",
    stdout := "", stderr := "boom" }

/-- An engine run that exited successfully, printing a version string. -/
def okOut : Output :=
  { success := true, statusDebug := "ExitStatus(unix_wait_status(0))",
    stdout := "10.03.1\n", stderr := "" }

/-- A discovery environment in which the bundled candidate exists but
fails, the sidecar fails, and the system-path command `gs` succeeds. -/
def gsEnvMixed : GsEnv :=
  { localCandidates := ["/Applications/PDF.app/gs"],
    sidecar := some "sidecar-gs",
    fallbackCommands := ["gs"],
    pathExists := fun p => p = "/Applications/PDF.app/gs",
    run := fun c _ =>
      if c = "gs" then SpawnResult.ok okOut else SpawnResult.ok failOut }

/-- A discovery environment in which every candidate fails: the bundled
candidate and sidecar exit non-zero, and `gs` cannot be spawned. -/
def gsEnvAllFail : GsEnv :=
  { localCandidates := ["/Applications/PDF.app/gs"],
    sidecar := some "sidecar-gs",
    fallbackCommands := ["gs"],
    pathExists := fun p => p = "/Applications/PDF.app/gs",
    run := fun c _ =>
      if c = "gs" then SpawnResult.err "No such file or directory (os error 2)"
      else SpawnResult.ok failOut }

/-- A discovery environment whose single candidate succeeds at once. -/
def gsEnvOkBare : GsEnv :=
  { localCandidates := [], sidecar := none, fallbackCommands := ["gs"],
    pathExists := fun _ => false,
    run := fun _ _ => SpawnResult.ok okOut }

/-- The empty file system. -/
def fs0 : FS := ⟨fun _ => none⟩

/-- Flatten with no reachable engine (see `gsEnvAllFail`). -/
def flatEnvNoEngine : FlattenEnv :=
  { gs := gsEnvAllFail, tmpDir := "/tmp", writeErr := none,
    readErr := "No such file or directory (os error 2)", engineFs := id }

/-- Flatten where the engine reports success but never produces the
output file, so reading it fails. -/
def flatEnvNoOutput : FlattenEnv :=
  { gs := gsEnvOkBare, tmpDir := "/tmp", writeErr := none,
    readErr := "No such file or directory (os error 2)", engineFs := id }

/-- Flatten where the engine succeeds and writes the output file. -/
def flatEnvWorking : FlattenEnv :=
  { gs := gsEnvOkBare, tmpDir := "/tmp", writeErr := none,
    readErr := "unused",
    engineFs := fun fs => fs.set (outputPath "/tmp") [80, 68, 70] }

/-- The diagnostic recorded for the whole search when it is exhausted:
the last fallback command's diagnostic, or the initial `last_error` text
when there is no fallback command at all. -/
def lastDiagOr (env : GsEnv) (args : List String) (le : String)
    (l : List String) : String :=
  match l.getLast? with
  | none => le
  | some c => attemptDiag env args c

/-! ### Helper lemmas about the discovery phases -/

theorem succeedsB_iff (env : GsEnv) (args : List String) (c : String) :
    succeedsB env args c = true ↔
      ∃ out, env.run c args = SpawnResult.ok out ∧ out.success = true := by
  unfold succeedsB
  cases h : env.run c args with
  | ok out =>
    simp only [SpawnResult.ok.injEq]
    constructor
    · intro hs; exact ⟨out, rfl, hs⟩
    · rintro ⟨out2, rfl, hs⟩; exact hs
  | err e =>
    simp only [Bool.false_eq_true, false_iff]
    rintro ⟨out2, hcon, -⟩
    exact SpawnResult.noConfusion hcon

theorem succeedsB_false_of_ok {env : GsEnv} {args : List String}
    {c : String} {out : Output} (hr : env.run c args = SpawnResult.ok out)
    (hs : succeedsB env args c = false) : out.success = false := by
  unfold succeedsB at hs
  rw [hr] at hs
  exact hs

theorem tryLocals_of_all_fail (env : GsEnv) (args : List String) :
    ∀ l : List String,
      (∀ c ∈ l.filter env.pathExists, succeedsB env args c = false) →
      tryLocals env args l = none := by
  intro l
  induction l with
  | nil => intro _; rfl
  | cons c rest ih =>
    intro h
    by_cases hpe : env.pathExists c = true
    · have hc : succeedsB env args c = false :=
        h c (List.mem_filter.mpr ⟨List.mem_cons_self c rest, hpe⟩)
      have hrest : ∀ x ∈ rest.filter env.pathExists,
          succeedsB env args x = false := by
        intro x hx
        rcases List.mem_filter.mp hx with ⟨hx1, hx2⟩
        exact h x (List.mem_filter.mpr ⟨List.mem_cons_of_mem c hx1, hx2⟩)
      unfold tryLocals
      rw [if_pos hpe]
      cases hr : env.run c args with
      | ok out =>
        have hs2 := succeedsB_false_of_ok hr hc
        simp only [hs2, Bool.false_eq_true, if_false]
        exact ih hrest
      | err e => exact ih hrest
    · have hrest : ∀ x ∈ rest.filter env.pathExists,
          succeedsB env args x = false := by
        intro x hx
        rcases List.mem_filter.mp hx with ⟨hx1, hx2⟩
        exact h x (List.mem_filter.mpr ⟨List.mem_cons_of_mem c hx1, hx2⟩)
      unfold tryLocals
      rw [if_neg hpe]
      exact ih hrest

theorem tryLocals_of_find?_some (env : GsEnv) (args : List String) :
    ∀ l c, (l.filter env.pathExists).find? (succeedsB env args) = some c →
      ∃ out, env.run c args = SpawnResult.ok out ∧ out.success = true ∧
        tryLocals env args l = some out := by
  intro l
  induction l with
  | nil => intro c h; exact absurd h (by simp)
  | cons a rest ih =>
    intro c h
    by_cases hpe : env.pathExists a = true
    · rw [List.filter_cons_of_pos hpe] at h
      by_cases hs : succeedsB env args a = true
      · rw [List.find?_cons_of_pos _ hs] at h
        injection h with h
        subst h
        obtain ⟨out, hr, hsucc⟩ := (succeedsB_iff env args a).mp hs
        refine ⟨out, hr, hsucc, ?_⟩
        unfold tryLocals
        rw [if_pos hpe, hr]
        simp [hsucc]
      · rw [List.find?_cons_of_neg _ hs] at h
        obtain ⟨out, hr, hsucc, htl⟩ := ih c h
        refine ⟨out, hr, hsucc, ?_⟩
        unfold tryLocals
        rw [if_pos hpe]
        cases hra : env.run a args with
        | ok out2 =>
          have hs2 : out2.success = false :=
            succeedsB_false_of_ok hra (by
              rw [← Bool.not_eq_true]
              exact hs)
          simp only [hs2, Bool.false_eq_true, if_false]
          exact htl
        | err e => exact htl
    · rw [List.filter_cons_of_neg hpe] at h
      obtain ⟨out, hr, hsucc, htl⟩ := ih c h
      refine ⟨out, hr, hsucc, ?_⟩
      unfold tryLocals
      rw [if_neg hpe]
      exact htl

theorem trySidecar_of_all_fail (env : GsEnv) (args : List String)
    (h : ∀ c ∈ env.sidecar.toList, succeedsB env args c = false) :
    trySidecar env args = none := by
  unfold trySidecar
  cases hsc : env.sidecar with
  | none => rfl
  | some s =>
    have hs : succeedsB env args s = false := by
      apply h
      rw [hsc]
      exact List.mem_singleton.mpr rfl
    show (match env.run s args with
      | SpawnResult.ok out => if out.success = true then some out else none
      | SpawnResult.err _ => none) = none
    cases hr : env.run s args with
    | ok out =>
      have hs2 := succeedsB_false_of_ok hr hs
      simp only [hs2, Bool.false_eq_true, if_false]
    | err e => rfl

theorem trySidecar_of_find?_some (env : GsEnv) (args : List String)
    (c : String)
    (h : env.sidecar.toList.find? (succeedsB env args) = some c) :
    ∃ out, env.run c args = SpawnResult.ok out ∧ out.success = true ∧
      trySidecar env args = some out := by
  cases hsc : env.sidecar with
  | none => rw [hsc] at h; exact absurd h (by simp)
  | some s =>
    rw [hsc] at h
    simp only [Option.toList_some] at h
    by_cases hs : succeedsB env args s = true
    · rw [List.find?_cons_of_pos _ hs] at h
      injection h with h
      subst h
      obtain ⟨out, hr, hsucc⟩ := (succeedsB_iff env args s).mp hs
      refine ⟨out, hr, hsucc, ?_⟩
      unfold trySidecar
      rw [hsc]
      show (match env.run s args with
        | SpawnResult.ok out => if out.success = true then some out else none
        | SpawnResult.err _ => none) = some out
      rw [hr]
      simp [hsucc]
    · rw [List.find?_cons_of_neg _ hs] at h
      exact absurd h (by simp)

theorem lastDiagOr_irrel (env : GsEnv) (args : List String)
    (le le' d : String) (rest : List String) :
    lastDiagOr env args le (d :: rest) = lastDiagOr env args le' (d :: rest) := by
  unfold lastDiagOr
  cases hg : (d :: rest).getLast? with
  | none => exact absurd (List.getLast?_eq_none_iff.mp hg) (by simp)
  | some c => rfl

theorem tryFallbacks_of_all_fail (env : GsEnv) (args : List String) :
    ∀ (l : List String) (le : String),
      (∀ c ∈ l, succeedsB env args c = false) →
      tryFallbacks env args le l = Except.error (lastDiagOr env args le l) := by
  intro l
  induction l with
  | nil => intro le _; rfl
  | cons c rest ih =>
    intro le h
    have hc : succeedsB env args c = false := h c (List.mem_cons_self c rest)
    have hrest : ∀ x ∈ rest, succeedsB env args x = false := fun x hx =>
      h x (List.mem_cons_of_mem c hx)
    unfold tryFallbacks
    cases hr : env.run c args with
    | ok out =>
      have hs2 := succeedsB_false_of_ok hr hc
      simp only [hs2, Bool.false_eq_true, if_false]
      rw [ih (statusDiag c out) hrest]
      cases rest with
      | nil => simp [lastDiagOr, attemptDiag, hr]
      | cons d rest2 =>
        rw [lastDiagOr_irrel env args (statusDiag c out) le d rest2]
        unfold lastDiagOr
        rw [List.getLast?_cons_cons]
    | err e =>
      show tryFallbacks env args (spawnDiag c e) rest =
        Except.error (lastDiagOr env args le (c :: rest))
      rw [ih (spawnDiag c e) hrest]
      cases rest with
      | nil => simp [lastDiagOr, attemptDiag, hr]
      | cons d rest2 =>
        rw [lastDiagOr_irrel env args (spawnDiag c e) le d rest2]
        unfold lastDiagOr
        rw [List.getLast?_cons_cons]

theorem tryFallbacks_of_find?_some (env : GsEnv) (args : List String) :
    ∀ (l : List String) (c : String) (le : String),
      l.find? (succeedsB env args) = some c →
      ∃ out, env.run c args = SpawnResult.ok out ∧ out.success = true ∧
        tryFallbacks env args le l = Except.ok out := by
  intro l
  induction l with
  | nil => intro c le h; exact absurd h (by simp)
  | cons a rest ih =>
    intro c le h
    by_cases hs : succeedsB env args a = true
    · rw [List.find?_cons_of_pos _ hs] at h
      injection h with h
      subst h
      obtain ⟨out, hr, hsucc⟩ := (succeedsB_iff env args a).mp hs
      refine ⟨out, hr, hsucc, ?_⟩
      unfold tryFallbacks
      rw [hr]
      simp [hsucc]
    · rw [List.find?_cons_of_neg _ hs] at h
      unfold tryFallbacks
      cases hr : env.run a args with
      | ok out =>
        have hs2 : out.success = false :=
          succeedsB_false_of_ok hr (by rw [← Bool.not_eq_true]; exact hs)
        simp only [hs2, Bool.false_eq_true, if_false]
        exact ih c (statusDiag a out) h
      | err e => exact ih c (spawnDiag a e) h

/-- All-candidates-fail characterisation of `run_ghostscript`, phase by
phase. -/
theorem run_ghostscript_all_fail (env : GsEnv) (args : List String)
    (h : ∀ c ∈ candidateOrder env, succeedsB env args c = false) :
    run_ghostscript env args =
      Except.error
        (lastDiagOr env args "Ghostscript is not available."
          env.fallbackCommands) := by
  have hA : ∀ c ∈ env.localCandidates.filter env.pathExists,
      succeedsB env args c = false := by
    intro c hcm
    refine h c ?_
    unfold candidateOrder
    exact List.mem_append_left _ (List.mem_append_left _ hcm)
  have hB : ∀ c ∈ env.sidecar.toList, succeedsB env args c = false := by
    intro c hcm
    refine h c ?_
    unfold candidateOrder
    exact List.mem_append_left _ (List.mem_append_right _ hcm)
  have hC : ∀ c ∈ env.fallbackCommands, succeedsB env args c = false := by
    intro c hcm
    refine h c ?_
    unfold candidateOrder
    exact List.mem_append_right _ hcm
  unfold run_ghostscript
  rw [tryLocals_of_all_fail env args env.localCandidates hA,
    trySidecar_of_all_fail env args hB]
  exact tryFallbacks_of_all_fail env args env.fallbackCommands
    "Ghostscript is not available." hC

/-- First-success characterisation of `run_ghostscript`, phase by phase:
the first candidate in `candidateOrder` that spawns and exits successfully
supplies the returned output. -/
theorem run_ghostscript_of_find?_some (env : GsEnv) (args : List String)
    (c : String)
    (hc : (candidateOrder env).find? (succeedsB env args) = some c) :
    ∃ out, env.run c args = SpawnResult.ok out ∧ out.success = true ∧
      run_ghostscript env args = Except.ok out := by
  unfold candidateOrder at hc
  rw [List.find?_append, List.find?_append] at hc
  cases hA : (env.localCandidates.filter env.pathExists).find?
      (succeedsB env args) with
  | some c1 =>
    rw [hA] at hc
    have hc2 : (some c1 : Option String) = some c := hc
    injection hc2 with hc2
    subst hc2
    obtain ⟨out, hr, hsucc, htl⟩ :=
      tryLocals_of_find?_some env args env.localCandidates c1 hA
    refine ⟨out, hr, hsucc, ?_⟩
    unfold run_ghostscript
    rw [htl]
  | none =>
    rw [hA, Option.none_or] at hc
    have hLoc := tryLocals_of_all_fail env args env.localCandidates (by
      intro x hx
      have hnx := List.find?_eq_none.mp hA x hx
      rwa [Bool.not_eq_true] at hnx)
    cases hB : (env.sidecar.toList).find? (succeedsB env args) with
    | some c2 =>
      rw [hB] at hc
      have hc2 : (some c2 : Option String) = some c := hc
      injection hc2 with hc2
      subst hc2
      obtain ⟨out, hr, hsucc, hts⟩ := trySidecar_of_find?_some env args c2 hB
      refine ⟨out, hr, hsucc, ?_⟩
      unfold run_ghostscript
      rw [hLoc, hts]
    | none =>
      rw [hB, Option.none_or] at hc
      have hSide := trySidecar_of_all_fail env args (by
        intro x hx
        have hnx := List.find?_eq_none.mp hB x hx
        rwa [Bool.not_eq_true] at hnx)
      obtain ⟨out, hr, hsucc, htf⟩ :=
        tryFallbacks_of_find?_some env args env.fallbackCommands c
          "Ghostscript is not available." hc
      refine ⟨out, hr, hsucc, ?_⟩
      unfold run_ghostscript
      rw [hLoc, hSide]
      exact htf

/-! ### Claim theorems -/

/-- C1: the engine locator `run_ghostscript` tries its candidates strictly
in the documented order — existing platform-local bundled candidates, then
the sidecar, then the system-path fallback command names — and returns the
output of the first candidate whose process spawns and exits with a
success status; failure of one candidate does not abort the search, and
only when every candidate has failed does it return an error, which
carries the last observed spawn error or exit diagnostic (that of the last
fallback command, the last candidate attempted). -/
theorem C1_run_ghostscript_first_success (env : GsEnv) (args : List String)
    (hfb : env.fallbackCommands ≠ []) :
    (∀ c, (candidateOrder env).find? (succeedsB env args) = some c →
        ∃ out, env.run c args = SpawnResult.ok out ∧ out.success = true ∧
          run_ghostscript env args = Except.ok out)
    ∧ ((candidateOrder env).find? (succeedsB env args) = none →
        ∃ c, env.fallbackCommands.getLast? = some c ∧
          run_ghostscript env args = Except.error (attemptDiag env args c)) := by
  constructor
  · intro c hc
    exact run_ghostscript_of_find?_some env args c hc
  · intro h
    have hall : ∀ x ∈ candidateOrder env, succeedsB env args x = false := by
      intro x hx
      have hnx := List.find?_eq_none.mp h x hx
      rwa [Bool.not_eq_true] at hnx
    cases hg : env.fallbackCommands.getLast? with
    | none => exact absurd (List.getLast?_eq_none_iff.mp hg) hfb
    | some cl =>
      refine ⟨cl, rfl, ?_⟩
      rw [run_ghostscript_all_fail env args hall]
      simp [lastDiagOr, hg]

/-- Witness for C1: in `gsEnvMixed` the bundled candidate exists but
fails and the sidecar fails, so the first success is the system-path
command `gs`, whose output is returned. -/
theorem C1_run_ghostscript_first_success_witness :
    (candidateOrder gsEnvMixed).find? (succeedsB gsEnvMixed ["--version"]) =
        some "gs"
    ∧ ∃ out, gsEnvMixed.run "gs" ["--version"] = SpawnResult.ok out ∧
        out.success = true ∧
        run_ghostscript gsEnvMixed ["--version"] = Except.ok out :=
  ⟨by decide,
   (C1_run_ghostscript_first_success gsEnvMixed ["--version"]
      (by decide)).1 "gs" (by decide)⟩

/-- C4: the version probe `check_ghostscript` never fails outward: it
returns the engine's trimmed standard output when discovery succeeds, and
the empty string — not an error — when no working engine could be found
or invoked. -/
theorem C4_check_ghostscript_total (env : GsEnv) :
    (∀ e, run_ghostscript env ["--version"] = Except.error e →
        check_ghostscript env = "")
    ∧ (∀ out, run_ghostscript env ["--version"] = Except.ok out →
        check_ghostscript env = out.stdout.trim) := by
  constructor
  · intro e he
    unfold check_ghostscript
    rw [he]
  · intro out ho
    unfold check_ghostscript
    rw [ho]

/-- Witness for C4: with no reachable engine the probe returns the empty
string; with a working engine it returns the trimmed stdout. -/
theorem C4_check_ghostscript_total_witness :
    check_ghostscript gsEnvAllFail = ""
    ∧ check_ghostscript gsEnvMixed = okOut.stdout.trim :=
  ⟨(C4_check_ghostscript_total gsEnvAllFail).1
      (spawnDiag "gs" "No such file or directory (os error 2)") rfl,
   (C4_check_ghostscript_total gsEnvMixed).2 okOut rfl⟩

/-- `tryLocals` only ever returns an output with a success status. -/
theorem tryLocals_success (env : GsEnv) (args : List String) :
    ∀ l out, tryLocals env args l = some out → out.success = true := by
  intro l
  induction l with
  | nil => intro out h; exact Option.noConfusion h
  | cons c rest ih =>
    intro out h
    unfold tryLocals at h
    by_cases hpe : env.pathExists c = true
    · rw [if_pos hpe] at h
      cases hr : env.run c args with
      | ok out2 =>
        rw [hr] at h
        by_cases hs : out2.success = true
        · simp only [hs, if_true] at h
          simp only [Option.some.injEq] at h
          subst h
          exact hs
        · rw [Bool.not_eq_true] at hs
          simp only [hs, Bool.false_eq_true, if_false] at h
          exact ih out h
      | err e =>
        rw [hr] at h
        exact ih out h
    · rw [if_neg hpe] at h
      exact ih out h

/-- `trySidecar` only ever returns an output with a success status. -/
theorem trySidecar_success (env : GsEnv) (args : List String) :
    ∀ out, trySidecar env args = some out → out.success = true := by
  intro out h
  unfold trySidecar at h
  cases hsc : env.sidecar with
  | none => rw [hsc] at h; exact Option.noConfusion h
  | some s =>
    rw [hsc] at h
    replace h : (match env.run s args with
      | SpawnResult.ok o => if o.success = true then some o else none
      | SpawnResult.err _ => none) = some out := h
    cases hr : env.run s args with
    | ok out2 =>
      rw [hr] at h
      by_cases hs : out2.success = true
      · simp only [hs, if_true, Option.some.injEq] at h
        subst h
        exact hs
      · rw [Bool.not_eq_true] at hs
        simp only [hs, Bool.false_eq_true, if_false] at h
        exact Option.noConfusion h
    | err e =>
      rw [hr] at h
      exact Option.noConfusion h

/-- `tryFallbacks` only ever returns an output with a success status. -/
theorem tryFallbacks_success (env : GsEnv) (args : List String) :
    ∀ l le out, tryFallbacks env args le l = Except.ok out →
      out.success = true := by
  intro l
  induction l with
  | nil =>
    intro le out h
    exact Except.noConfusion h
  | cons c rest ih =>
    intro le out h
    unfold tryFallbacks at h
    cases hr : env.run c args with
    | ok out2 =>
      rw [hr] at h
      by_cases hs : out2.success = true
      · simp only [hs, if_true, Except.ok.injEq] at h
        subst h
        exact hs
      · rw [Bool.not_eq_true] at hs
        simp only [hs, Bool.false_eq_true, if_false] at h
        exact ih (statusDiag c out2) out h
    | err e =>
      rw [hr] at h
      exact ih (spawnDiag c e) out h

/-- `run_ghostscript` returns `Ok` only for a successful exit status. -/
theorem run_ghostscript_success (env : GsEnv) (args : List String)
    (out : Output) (h : run_ghostscript env args = Except.ok out) :
    out.success = true := by
  unfold run_ghostscript at h
  cases hL : tryLocals env args env.localCandidates with
  | some o =>
    rw [hL] at h
    simp only [Except.ok.injEq] at h
    subst h
    exact tryLocals_success env args env.localCandidates o hL
  | none =>
    rw [hL] at h
    cases hS : trySidecar env args with
    | some o =>
      rw [hS] at h
      simp only [Except.ok.injEq] at h
      subst h
      exact trySidecar_success env args o hS
    | none =>
      rw [hS] at h
      exact tryFallbacks_success env args env.fallbackCommands
        "Ghostscript is not available." out h

/-- `flatten_pdf` behaves identically with its non-success-status branch
deleted. -/
theorem flatten_pdf_eq_nodead (env : FlattenEnv) (fs : FS)
    (pdf_bytes : List Nat) :
    flatten_pdf env fs pdf_bytes = flatten_pdf_nodead env fs pdf_bytes := by
  unfold flatten_pdf flatten_pdf_nodead
  cases hw : env.writeErr with
  | some e => rfl
  | none =>
    dsimp only
    cases hr : run_ghostscript env.gs (flattenArgs env.tmpDir) with
    | error e => rfl
    | ok result =>
      have hs := run_ghostscript_success env.gs (flattenArgs env.tmpDir)
        result hr
      simp only [hs, Bool.true_eq_false, if_false]

/-- C8: the non-success-status branch in `flatten_pdf` is unreachable:
`run_ghostscript` returns `Ok` only when the spawned process's exit
status is a success, so `flatten_pdf` is extensionally equal to itself
with that branch removed. -/
theorem C8_dead_branch_unreachable :
    (∀ (env : GsEnv) (args : List String) (out : Output),
        run_ghostscript env args = Except.ok out → out.success = true)
    ∧ ∀ (env : FlattenEnv) (fs : FS) (pdf_bytes : List Nat),
        flatten_pdf env fs pdf_bytes = flatten_pdf_nodead env fs pdf_bytes :=
  ⟨fun env args out h => run_ghostscript_success env args out h,
   fun env fs pdf_bytes => flatten_pdf_eq_nodead env fs pdf_bytes⟩

/-- Witness for C8: a concrete successful discovery, with the success
flag read off the returned output. -/
theorem C8_dead_branch_unreachable_witness :
    okOut.success = true :=
  C8_dead_branch_unreachable.1 gsEnvOkBare ["--version"] okOut rfl

/-- C5: `check_file_existence` returns a same-length, order-preserving
list of booleans, the i-th being the existence oracle's answer for the
i-th path; it is total, so a missing path simply yields `false`. -/
theorem C5_check_file_existence_spec (pathExists : String → Bool)
    (file_paths : List String) :
    (check_file_existence pathExists file_paths).length = file_paths.length
    ∧ ∀ i : Nat, (check_file_existence pathExists file_paths)[i]? =
        (file_paths[i]?).map pathExists := by
  constructor
  · exact List.length_map file_paths _
  · intro i
    exact List.getElem?_map _ file_paths i

/-- C6: `take_pending_open_paths` atomically copies and clears the
pending queue and returns its prior contents; after a drain the queue is
empty, so a second drain with no intervening launch event returns the
empty list — a non-empty list is returned at most once. -/
theorem C6_take_pending_open_paths_drain (pending : List String) :
    (take_pending_open_paths pending).1 = pending
    ∧ (take_pending_open_paths pending).2 = []
    ∧ (take_pending_open_paths (take_pending_open_paths pending).2).1 = [] :=
  ⟨rfl, rfl, rfl⟩

/-- `filterMap` with an if-some-else-none body is `filter`. -/
theorem filterMap_ite_eq_filter (p : String → Bool) :
    ∀ l : List String,
      l.filterMap (fun a => if p a then some a else none) = l.filter p := by
  intro l
  induction l with
  | nil => rfl
  | cons a rest ih =>
    by_cases hp : p a = true
    · simp [List.filterMap_cons, hp, List.filter_cons, ih]
    · simp [List.filterMap_cons, hp, List.filter_cons, ih]

/-- C10: a drain after startup returns exactly the launch-argument paths
that passed the existing-regular-file filter, in the order they appeared
in the launch arguments (the collected list is the filter of the
arguments after the program name, hence a sublist of them). -/
theorem C10_drain_preserves_startup_order
    (pathExists isFile : String → Bool) (args : List String) :
    (take_pending_open_paths
        (setupPending (collect_startup_file_paths pathExists isFile args)
          [])).1 =
      collect_startup_file_paths pathExists isFile args
    ∧ collect_startup_file_paths pathExists isFile args =
        (args.drop 1).filter (fun a => pathExists a && isFile a)
    ∧ (collect_startup_file_paths pathExists isFile args).Sublist
        (args.drop 1) := by
  have hfm : collect_startup_file_paths pathExists isFile args =
      (args.drop 1).filter (fun a => pathExists a && isFile a) :=
    filterMap_ite_eq_filter (fun a => pathExists a && isFile a) (args.drop 1)
  refine ⟨?_, hfm, ?_⟩
  · unfold take_pending_open_paths setupPending
    by_cases he :
        (collect_startup_file_paths pathExists isFile args).isEmpty = true
    · rw [if_pos he]
      exact (List.isEmpty_iff.mp he).symm
    · rw [if_neg he]
      exact List.nil_append _
  · rw [hfm]
    exact List.filter_sublist _

/-- After erasing `p` and then `q`, reading `p` gives nothing. -/
theorem FS.read_erase_erase_left (fs : FS) (p q : String) :
    ((fs.erase p).erase q).read p = none := by
  unfold FS.erase FS.read
  by_cases h : p = q
  · simp [h]
  · simp [h]

/-- After erasing `p` and then `q`, reading `q` gives nothing. -/
theorem FS.read_erase_erase_right (fs : FS) (p q : String) :
    ((fs.erase p).erase q).read q = none := by
  unfold FS.erase FS.read
  simp

/-- Whenever the temp-file write succeeds, `flatten_pdf` records the
bytes written to the fixed-name input file and the argument list passed
to the engine, on every control path. -/
theorem flatten_pdf_observables (env : FlattenEnv) (fs : FS)
    (pdf_bytes : List Nat) (hw : env.writeErr = none) :
    (flatten_pdf env fs pdf_bytes).inputWritten =
        some (inputPath env.tmpDir, pdf_bytes)
    ∧ (flatten_pdf env fs pdf_bytes).engineArgs =
        some (flattenArgs env.tmpDir) := by
  unfold flatten_pdf
  rw [hw]
  dsimp only
  constructor <;>
    · split
      · rfl
      · split
        · rfl
        · split
          · rfl
          · rfl

/-- `flatten_pdf` passes the engine an argument list that depends only on
the temporary directory, never on the input bytes. -/
theorem flatten_pdf_engineArgs_const (env : FlattenEnv) (fs : FS)
    (b b' : List Nat) :
    (flatten_pdf env fs b).engineArgs = (flatten_pdf env fs b').engineArgs := by
  cases hw : env.writeErr with
  | some e =>
    unfold flatten_pdf
    rw [hw]
  | none =>
    rw [(flatten_pdf_observables env fs b hw).2,
      (flatten_pdf_observables env fs b' hw).2]

/-- C7: every flatten invocation that reaches the engine passes the
fixed, non-configurable argument list in exactly this order — batch mode,
no interactive pause, restricted file-system access, quiet mode,
pdf-rewrite output device, font-outlining directive, fixed compatibility
level, explicit output-file path, explicit input-file path — and the list
does not depend on the input bytes. -/
theorem C7_flatten_pdf_args_fixed :
    (∀ tmpDir, flattenArgs tmpDir =
      ["-dBATCH", "-dNOPAUSE", "-dSAFER", "-dQUIET", "-sDEVICE=pdfwrite",
       "-dNoOutputFonts", "-dCompatibilityLevel=1.7",
       "-sOutputFile=" ++ tmpDir ++ "/pdfresizer_flatten_output.pdf",
       tmpDir ++ "/pdfresizer_flatten_input.pdf"])
    ∧ (∀ (env : FlattenEnv) (fs : FS) (b : List Nat), env.writeErr = none →
        (flatten_pdf env fs b).engineArgs = some (flattenArgs env.tmpDir))
    ∧ (∀ (env : FlattenEnv) (fs : FS) (b b' : List Nat),
        (flatten_pdf env fs b).engineArgs =
          (flatten_pdf env fs b').engineArgs) := by
  refine ⟨?_, ?_, ?_⟩
  · intro tmpDir
    simp [flattenArgs, outputPath, inputPath, String.append_assoc]
  · intro env fs b hw
    exact (flatten_pdf_observables env fs b hw).2
  · intro env fs b b'
    exact flatten_pdf_engineArgs_const env fs b b'

/-- Witness for C7 at a concrete environment and two different inputs. -/
theorem C7_flatten_pdf_args_fixed_witness :
    (flatten_pdf flatEnvWorking fs0 [1, 2]).engineArgs =
        some (flattenArgs "/tmp")
    ∧ (flatten_pdf flatEnvWorking fs0 [1, 2]).engineArgs =
        (flatten_pdf flatEnvWorking fs0 [3]).engineArgs :=
  ⟨C7_flatten_pdf_args_fixed.2.1 flatEnvWorking fs0 [1, 2] rfl,
   C7_flatten_pdf_args_fixed.2.2 flatEnvWorking fs0 [1, 2] [3]⟩

/-- C9: `flatten_pdf` validates nothing about its input: for every byte
vector — including the empty vector and bytes that are no well-formed
PDF — once the temp-file write succeeds, the bytes are recorded verbatim
into the fixed-name temporary input file and the engine is invoked; no
precondition on the bytes is checked. -/
theorem C9_flatten_pdf_no_validation (env : FlattenEnv) (fs : FS)
    (pdf_bytes : List Nat) (hw : env.writeErr = none) :
    (flatten_pdf env fs pdf_bytes).inputWritten =
        some (env.tmpDir ++ "/pdfresizer_flatten_input.pdf", pdf_bytes)
    ∧ (flatten_pdf env fs pdf_bytes).engineArgs =
        some (flattenArgs env.tmpDir) :=
  flatten_pdf_observables env fs pdf_bytes hw

/-- Witness for C9 at the empty byte vector, which is certainly not a
well-formed PDF. -/
theorem C9_flatten_pdf_no_validation_witness :
    (flatten_pdf flatEnvWorking fs0 []).inputWritten =
        some ("/tmp/pdfresizer_flatten_input.pdf", [])
    ∧ (flatten_pdf flatEnvWorking fs0 []).engineArgs =
        some (flattenArgs "/tmp") :=
  C9_flatten_pdf_no_validation flatEnvWorking fs0 [] rfl

/-- C2 (code-bug evidence): when the engine invocation does not succeed
because no candidate is reachable, `flatten_pdf` propagates the discovery
error through `?` without any cleanup: the returned error is the last
spawn diagnostic (embedding no captured stderr), and the fixed-name
temporary input file is left behind on the file system. -/
theorem C2_flatten_pdf_failure_no_cleanup :
    (flatten_pdf flatEnvNoEngine fs0 [37, 13]).result =
      Except.error
        "Failed to execute Ghostscript command \x27gs\x27: No such file or directory (os error 2)"
    ∧ (flatten_pdf flatEnvNoEngine fs0 [37, 13]).fs.read
        (inputPath "/tmp") = some [37, 13]
    ∧ (flatten_pdf flatEnvNoEngine fs0 [37, 13]).fs.read
        (inputPath "/tmp") ≠ none :=
  ⟨rfl, rfl, fun h => Option.noConfusion h⟩

/-- C3 counterexample: a flatten invocation that reaches the engine,
whose exit is successful but whose output file cannot be read: the call
returns the read error and deletes neither temporary file — the
temporary input file is still present afterwards, refuting deletion
"regardless of whether the call returns the output bytes or an error". -/
theorem C3_flatten_pdf_read_failure_counterexample :
    (flatten_pdf flatEnvNoOutput fs0 [37]).result =
      Except.error
        "Failed to read flattened output: No such file or directory (os error 2)"
    ∧ (flatten_pdf flatEnvNoOutput fs0 [37]).fs.read (inputPath "/tmp") =
        some [37]
    ∧ (flatten_pdf flatEnvNoOutput fs0 [37]).fs.read (inputPath "/tmp") ≠
        none :=
  ⟨rfl, rfl, fun h => Option.noConfusion h⟩

/-- C3 (amended): both fixed-name temporary files are deleted before the
call returns whenever `flatten_pdf` returns the output bytes; on the
error paths (engine unreachable, or output file unreadable) no deletion
is performed. -/
theorem C3_flatten_pdf_cleanup_on_success (env : FlattenEnv) (fs : FS)
    (pdf_bytes out_bytes : List Nat)
    (h : (flatten_pdf env fs pdf_bytes).result = Except.ok out_bytes) :
    (flatten_pdf env fs pdf_bytes).fs.read (inputPath env.tmpDir) = none
    ∧ (flatten_pdf env fs pdf_bytes).fs.read (outputPath env.tmpDir) =
        none := by
  unfold flatten_pdf at h ⊢
  cases hw : env.writeErr with
  | some e =>
    rw [hw] at h
    simp at h
  | none =>
    rw [hw] at h
    dsimp only at h ⊢
    cases hr : run_ghostscript env.gs (flattenArgs env.tmpDir) with
    | error e =>
      rw [hr] at h
      simp at h
    | ok result =>
      rw [hr] at h
      by_cases hs : result.success = false
      · simp only [hs, if_true] at h ⊢
        simp at h
      · simp only [hs, if_false] at h ⊢
        cases hread : (env.engineFs
            (fs.set (inputPath env.tmpDir) pdf_bytes)).read
            (outputPath env.tmpDir) with
        | none =>
          rw [hread] at h
          simp at h
        | some output_bytes =>
          rw [hread] at h
          exact ⟨FS.read_erase_erase_left _ _ _,
            FS.read_erase_erase_right _ _ _⟩

/-- Witness for the amended C3: a successful flatten leaves neither
temporary file behind. -/
theorem C3_flatten_pdf_cleanup_on_success_witness :
    (flatten_pdf flatEnvWorking fs0 [9]).fs.read (inputPath "/tmp") = none
    ∧ (flatten_pdf flatEnvWorking fs0 [9]).fs.read (outputPath "/tmp") =
        none :=
  C3_flatten_pdf_cleanup_on_success flatEnvWorking fs0 [9] [80, 68, 70] rfl

